import Mathlib

set_option maxHeartbeats 1000000

/-!
Verification development for the VRP-Camiones planner (`VRP.py`).

The script plans multi-day delivery routes for a fleet of 4 trucks with a
capacity limit, a workday budget, a fixed dispatch time per client and a
mid-route depot recharge.  The embedding below follows the source closely:

* real numbers model Python floats (idealized, no rounding error);
* the mutable `df` DataFrame becomes a `List Row` threaded through the loops;
* the two `while` loops become fuel-indexed recursions returning `Option`
  (`none` = fuel exhausted, i.e. the loop did not terminate in that many
  iterations);
* `int(...)` truncation toward zero is `truncInt`;
* Python's `round(x, n)` (banker's rounding) is `pyRound`.

Ghost fields (`llegada_raw`, `salida_raw`, `dist_tramo_raw` on `Entrega`,
`dist_raw`/`tiempo_raw` on `Metrica`) record the pre-rounding values next to
the rounded ones stored by the source; they are used only to state
properties about pre-rounding quantities and do not influence control flow.
-/

noncomputable section

/-! ### 1. Problem parameters (section 1 of the source) -/

def CAPACIDAD_MAX : ℝ := 15
def VEL_MED : ℝ := 60
def T_DESPACHO : ℝ := 10
def T_RECARGA : ℝ := 20
def T_JORNADA : ℝ := 7 * 60

/-! ### 2. Data model -/

/-- One row of the client DataFrame: `Cliente ID`, `Coordenada X`,
`Coordenada Y`, `Peso (kg)`, plus the state columns `asignado` and
`día_entrega` added in section 2.2 of the source. -/
structure Row where
  cid : ℕ
  coordX : ℝ
  coordY : ℝ
  peso : ℝ
  asignado : Bool
  dia : Option ℕ

/-- Truck state (section 6.1 of the source): visited route, onboard load,
elapsed minutes, accumulated kilometers. -/
structure Camion where
  ruta : List ℕ
  carga : ℝ
  tiempo : ℝ
  dist : ℝ

/-- A delivery record appended to `entregas` (section 6.3.3).  The first six
fields are exactly what the source stores (the three time/distance values
rounded); the `_raw` fields are ghost copies of the unrounded values. -/
structure Entrega where
  dia : ℕ
  camion : ℕ
  cliente : ℕ
  llegada_min : ℝ
  salida_min : ℝ
  dist_tramo_km : ℝ
  llegada_raw : ℝ
  salida_raw : ℝ
  dist_tramo_raw : ℝ

/-- A daily metric appended to `metricas` (section 6.5); rounded fields as in
the source plus ghost unrounded copies. -/
structure Metrica where
  dia : ℕ
  camion : ℕ
  distancia_km : ℝ
  tiempo_min : ℝ
  dist_raw : ℝ
  tiempo_raw : ℝ

/-- State of the inner route-construction loop of one truck (section 6.3):
the shared DataFrame, the truck, the current position `ubic`, and the
delivery records produced so far by this truck today. -/
structure EstadoRuta where
  df : List Row
  camion : Camion
  ubic : ℕ
  entregas : List Entrega

/-! ### 3. Helper functions of the source -/

/-- `coords`: the `{ID → (x, y)}` dictionary of section 3 of the source,
with the depot as ID 0 at (0,0).  Later rows overwrite earlier ones, as in a
Python dict, hence the lookup on the reversed list. -/
def coordsOf (df : List Row) (i : ℕ) : ℝ × ℝ :=
  if i = 0 then (0, 0)
  else
    match df.reverse.find? (fun r => r.cid == i) with
    | some r => (r.coordX, r.coordY)
    | none => (0, 0)

/-- `distancia(p1, p2) = math.hypot(p1[0]-p2[0], p1[1]-p2[1])` (section 4). -/
def distancia (p1 p2 : ℝ × ℝ) : ℝ :=
  Real.sqrt ((p1.1 - p2.1) ^ 2 + (p1.2 - p2.2) ^ 2)

/-- Python `int()` truncation toward zero on a float. -/
def truncInt (x : ℝ) : ℤ :=
  if 0 ≤ x then ⌊x⌋ else ⌈x⌉

/-- Python `round()` to an integer: round half to even. -/
def roundHalfEven (x : ℝ) : ℤ :=
  if Int.fract x = 1 / 2 then 2 * round (x / 2) else round x

/-- Python `round(x, n)` (idealized over ℝ). -/
def pyRound (x : ℝ) (n : ℕ) : ℝ :=
  (roundHalfEven (x * 10 ^ n) : ℝ) / 10 ^ n

/-- Minimum of a list of reals (`pesos_rest.min()`); junk value 0 on `[]`,
the source only calls it on nonempty series. -/
def listMin : List ℝ → ℝ
  | [] => 0
  | [a] => a
  | a :: b :: rest => min a (listMin (b :: rest))

/-! ### 4. DataFrame operations used by the planner -/

/-- `df[~df['asignado']]`. -/
def restoDe (df : List Row) : List Row :=
  df.filter (fun r => !r.asignado)

open Classical in
/-- `resto[resto['Peso (kg)'] + camion['carga'] <= CAPACIDAD_MAX]`. -/
def filtraPeso (carga : ℝ) : List Row → List Row
  | [] => []
  | r :: rs =>
      if r.peso + carga ≤ CAPACIDAD_MAX then r :: filtraPeso carga rs
      else filtraPeso carga rs

/-- The candidate set of one selection round (section 6.3, lines 97–98). -/
def candidatosDe (df : List Row) (carga : ℝ) : List Row :=
  filtraPeso carga (restoDe df)

/-- `df.loc[df['Cliente ID'] == cid, ['asignado','día_entrega']] = [True, día]`
(section 6.3.4). -/
def markServed (df : List Row) (cid : ℕ) (dia : ℕ) : List Row :=
  df.map fun r =>
    if r.cid = cid then { r with asignado := true, dia := some dia } else r

/-- `df[~df['asignado']]['Peso (kg)']` (section 6.3.6). -/
def unservedPesos (df : List Row) : List ℝ :=
  (restoDe df).map (fun r => r.peso)

/-- Number of unserved clients (rows with `asignado = False`). -/
def cuentaNoAsignados (df : List Row) : ℕ :=
  (restoDe df).length

/-! ### 5. Candidate evaluation (section 6.3.1) -/

/-- `d_ida = distancia(coords[ubic], coords[cid])`. -/
def dIdaDe (cs : ℕ → ℝ × ℝ) (ubic : ℕ) (r : Row) : ℝ :=
  distancia (cs ubic) (cs r.cid)

/-- `t_ida = (d_ida / VEL_MED) * 60`. -/
def tIdaDe (cs : ℕ → ℝ × ℝ) (ubic : ℕ) (r : Row) : ℝ :=
  dIdaDe cs ubic r / VEL_MED * 60

/-- `t_ret = (distancia(coords[cid], coords[0]) / VEL_MED) * 60`. -/
def tRetDe (cs : ℕ → ℝ × ℝ) (r : Row) : ℝ :=
  distancia (cs r.cid) (cs 0) / VEL_MED * 60

/-- `coste = t_ida + T_DESPACHO + t_ret`. -/
def costeDe (cs : ℕ → ℝ × ℝ) (ubic : ℕ) (r : Row) : ℝ :=
  tIdaDe cs ubic r + T_DESPACHO + tRetDe cs r

open Classical in
/-- The `for _, row in candidatos.iterrows()` fold that computes `mejor`
(lines 104–119): skip a candidate if `tiempo + coste > T_JORNADA`, otherwise
keep it when `mejor is None or coste < mejor[1]`.  The accumulator holds
`(cid, coste, t_ida, d_ida)`. -/
def buscaMejor (cs : ℕ → ℝ × ℝ) (ubic : ℕ) (tiempo : ℝ) :
    Option (ℕ × ℝ × ℝ × ℝ) → List Row → Option (ℕ × ℝ × ℝ × ℝ)
  | mejor, [] => mejor
  | mejor, r :: rs =>
      if tiempo + costeDe cs ubic r > T_JORNADA then
        buscaMejor cs ubic tiempo mejor rs
      else
        match mejor with
        | none =>
            buscaMejor cs ubic tiempo
              (some (r.cid, costeDe cs ubic r, tIdaDe cs ubic r, dIdaDe cs ubic r)) rs
        | some m =>
            if costeDe cs ubic r < m.2.1 then
              buscaMejor cs ubic tiempo
                (some (r.cid, costeDe cs ubic r, tIdaDe cs ubic r, dIdaDe cs ubic r)) rs
            else
              buscaMejor cs ubic tiempo (some m) rs

/-! ### 6. One iteration of the inner loop (sections 6.3.2–6.3.6) -/

open Classical in
/-- One pass of the `while True` body: returns `none` on either `break`
(empty candidate set, or no candidate fits in the remaining workday), and
`some s'` after a commit (and possibly a recharge).

Note the faithful reproduction of line 148: the load is increased by
`int(row['Peso (kg)'])` where `row` is the *last* row of `candidatos`
left over from the evaluation loop — not the selected client's row. -/
def pasoRuta (cs : ℕ → ℝ × ℝ) (dia idx : ℕ) (s : EstadoRuta) : Option EstadoRuta :=
  let cands := candidatosDe s.df s.camion.carga
  if h : cands = [] then none
  else
    match buscaMejor cs s.ubic s.camion.tiempo none cands with
    | none => none
    | some (cid_sel, _coste_sel, t_ida_sel, d_ida_sel) =>
        let llegada := s.camion.tiempo + t_ida_sel
        let salida := llegada + T_DESPACHO
        let ent : Entrega :=
          ⟨dia, idx, cid_sel, pyRound llegada 1, pyRound salida 1,
            pyRound d_ida_sel 2, llegada, salida, d_ida_sel⟩
        let df' := markServed s.df cid_sel dia
        let camion' : Camion :=
          { ruta := s.camion.ruta ++ [cid_sel]
            carga := s.camion.carga + ((truncInt (cands.getLast h).peso : ℤ) : ℝ)
            tiempo := salida
            dist := s.camion.dist + d_ida_sel }
        let pesos := unservedPesos df'
        if pesos ≠ [] ∧ camion'.carga + listMin pesos > CAPACIDAD_MAX then
          let d_vuelta := distancia (cs cid_sel) (cs 0)
          let t_vuelta := d_vuelta / VEL_MED * 60
          some ⟨df',
            { ruta := camion'.ruta ++ [0]
              carga := 0
              tiempo := camion'.tiempo + t_vuelta + T_RECARGA
              dist := camion'.dist + d_vuelta },
            0, s.entregas ++ [ent]⟩
        else
          some ⟨df', camion', cid_sel, s.entregas ++ [ent]⟩

/-- The `while True` loop of section 6.3, with fuel.  `none` means the fuel
ran out before a `break`; `some s` is the state at loop exit. -/
def rutaLoop (cs : ℕ → ℝ × ℝ) (dia idx : ℕ) : ℕ → EstadoRuta → Option EstadoRuta
  | 0, _ => none
  | fuel + 1, s =>
      match pasoRuta cs dia idx s with
      | none => some s
      | some s' => rutaLoop cs dia idx fuel s'

/-- Section 6.4: close the daily route returning to the depot when the truck
is not already there. -/
def cierraRuta (cs : ℕ → ℝ × ℝ) (s : EstadoRuta) : Camion :=
  if s.ubic ≠ 0 then
    let d_final := distancia (cs s.ubic) (cs 0)
    let t_final := d_final / VEL_MED * 60
    { ruta := s.camion.ruta ++ [0]
      carga := s.camion.carga
      tiempo := s.camion.tiempo + t_final
      dist := s.camion.dist + d_final }
  else s.camion

/-- Section 6.5: the daily metric of one truck. -/
def mkMetrica (dia idx : ℕ) (cam : Camion) : Metrica :=
  ⟨dia, idx, pyRound cam.dist 2, pyRound cam.tiempo 1, cam.dist, cam.tiempo⟩

/-- One truck's full day (sections 6.2–6.4): fresh truck at the depot, run
the inner loop, close the route.  Returns the updated DataFrame, the final
truck state and the delivery records. -/
def construyeRuta (cs : ℕ → ℝ × ℝ) (dia idx fuel : ℕ) (df : List Row) :
    Option (List Row × Camion × List Entrega) :=
  match rutaLoop cs dia idx fuel ⟨df, ⟨[0], 0, 0, 0⟩, 0, []⟩ with
  | none => none
  | some s => some (s.df, cierraRuta cs s, s.entregas)

/-- Section 6.2's `for idx, camion in enumerate(camiones, start=1)`:
run the trucks in order, each consuming from the shared DataFrame, emitting
one metric per truck. -/
def corridaCamiones (cs : ℕ → ℝ × ℝ) (fuel dia : ℕ) :
    List ℕ → List Row → Option (List Row × List Entrega × List Metrica)
  | [], df => some (df, [], [])
  | idx :: rest, df =>
      match construyeRuta cs dia idx fuel df with
      | none => none
      | some (df', cam, ents) =>
          match corridaCamiones cs fuel dia rest df' with
          | none => none
          | some (df'', ents2, mets2) =>
              some (df'', ents ++ ents2, mkMetrica dia idx cam :: mets2)

/-- Section 6's day loop `while not df['asignado'].all()`, with fuel on the
number of days.  `none` means the day loop (or some inner loop) did not
terminate within the fuel. -/
def buclePrincipal (cs : ℕ → ℝ × ℝ) (fuelRuta : ℕ) :
    ℕ → ℕ → List Row → Option (List Row × List Entrega × List Metrica)
  | 0, _, _ => none
  | fuelDias + 1, dia, df =>
      if df.all (fun r => r.asignado) then some (df, [], [])
      else
        match corridaCamiones cs fuelRuta dia [1, 2, 3, 4] df with
        | none => none
        | some (df', ents, mets) =>
            match buclePrincipal cs fuelRuta fuelDias (dia + 1) df' with
            | none => none
            | some (df'', ents2, mets2) => some (df'', ents ++ ents2, mets ++ mets2)

/-- The whole planning run on input `df0`, starting at day 1. -/
def ejecuta (df0 : List Row) (fuelDias fuelRuta : ℕ) :
    Option (List Row × List Entrega × List Metrica) :=
  buclePrincipal (coordsOf df0) fuelRuta fuelDias 1 df0

/-! ### 7. Specification-side helpers (used only to state properties) -/

/-- Demand weight of the client with identity `c` (first matching row). -/
def pesoDe (df : List Row) (c : ℕ) : ℝ :=
  ((df.find? (fun r => r.cid == c)).map Row.peso).getD 0

/-- The clients visited since the last depot visit in a route: the maximal
suffix not containing the depot id 0. -/
def tramoDesdeDeposito (p : List ℕ) : List ℕ :=
  (p.reverse.takeWhile (fun i => i ≠ 0)).reverse

/-- Actual onboard weight after driving a route: sum of the demand weights
of the clients served since the last depot visit. -/
def cargaTramo (df : List Row) (p : List ℕ) : ℝ :=
  ((tramoDesdeDeposito p).map (pesoDe df)).sum

/-- Sum of the pre-rounding leg distances of a list of delivery records. -/
def sumRaw (ents : List Entrega) : ℝ :=
  (ents.map (fun e => e.dist_tramo_raw)).sum

/-- Total distance of the depot-bound legs of a route (recharge legs and the
closing leg are exactly the legs whose target is the depot id 0). -/
def distLegsDeposito (cs : ℕ → ℝ × ℝ) : List ℕ → ℝ
  | a :: b :: rest => (if b = 0 then distancia (cs a) (cs b) else 0) + distLegsDeposito cs (b :: rest)
  | _ => 0

/-! ### 8. Concrete inputs used in the theorems below -/

/-- Scenario A of the spec: one client at (5,0), weight 10 kg. -/
def dfA : List Row := [⟨1, 5, 0, 10, false, none⟩]

/-- Two clients: id 1 at (1,0) weight 3 (cheap), id 2 at (9,0) weight 5
(expensive, last in the enumeration order). -/
def dfC1a : List Row := [⟨1, 1, 0, 3, false, none⟩, ⟨2, 9, 0, 5, false, none⟩]

/-- One client with a non-integral weight 10.5 kg. -/
def dfC1b : List Row := [⟨1, 5, 0, 10.5, false, none⟩]

/-- Scenario C of the spec: one client whose weight 20 exceeds the
capacity 15. -/
def dfC2 : List Row := [⟨1, 5, 0, 20, false, none⟩]

/-- Three clients: id 1 at (1,0) weight 14, id 2 at (2,0) weight 13,
id 3 at (10,0) weight 2. -/
def dfC3 : List Row :=
  [⟨1, 1, 0, 14, false, none⟩, ⟨2, 2, 0, 13, false, none⟩, ⟨3, 10, 0, 2, false, none⟩]

/-- Scenario B of the spec: two clients at (5,0), 10 kg each. -/
def dfB : List Row := [⟨1, 5, 0, 10, false, none⟩, ⟨2, 5, 0, 10, false, none⟩]

/-- Two distant clients: id 1 at (200,0) and id 2 at (201,0), 10 kg each. -/
def dfC9 : List Row := [⟨1, 200, 0, 10, false, none⟩, ⟨2, 201, 0, 10, false, none⟩]

/-- One client located exactly at the depot position (0,0). -/
def dfC10 : List Row := [⟨1, 0, 0, 10, false, none⟩]

/-- Final DataFrame of scenario A. -/
def dfA_fin : List Row := [⟨1, 5, 0, 10, true, some 1⟩]

/-- The single delivery record of scenario A. -/
def entA : Entrega := ⟨1, 1, 1, 5, 15, 5, 5, 15, 5⟩

/-- `dfC1a` after serving client 1. -/
def dfC1a_fin : List Row := [⟨1, 1, 0, 3, true, some 1⟩, ⟨2, 9, 0, 5, false, none⟩]

/-- The delivery record of the first commit on `dfC1a`. -/
def entC1a : Entrega := ⟨1, 1, 1, 1, 11, 1, 1, 11, 1⟩

/-- `dfC1b` after serving client 1. -/
def dfC1b_fin : List Row := [⟨1, 5, 0, 10.5, true, some 1⟩]

/-- The delivery record of the commit on `dfC1b`. -/
def entC1b : Entrega := ⟨1, 1, 1, 5, 15, 5, 5, 15, 5⟩

/-- `dfC3` after serving client 1. -/
def dfC3_1 : List Row :=
  [⟨1, 1, 0, 14, true, some 1⟩, ⟨2, 2, 0, 13, false, none⟩, ⟨3, 10, 0, 2, false, none⟩]

/-- `dfC3` after serving clients 1 and 2. -/
def dfC3_2 : List Row :=
  [⟨1, 1, 0, 14, true, some 1⟩, ⟨2, 2, 0, 13, true, some 1⟩, ⟨3, 10, 0, 2, false, none⟩]

/-- `dfC3` after serving all three clients. -/
def dfC3_fin : List Row :=
  [⟨1, 1, 0, 14, true, some 1⟩, ⟨2, 2, 0, 13, true, some 1⟩, ⟨3, 10, 0, 2, true, some 1⟩]

/-- The three delivery records of the `dfC3` run. -/
def entC3_1 : Entrega := ⟨1, 1, 1, 1, 11, 1, 1, 11, 1⟩

def entC3_2 : Entrega := ⟨1, 1, 2, 12, 22, 1, 12, 22, 1⟩

def entC3_3 : Entrega := ⟨1, 1, 3, 30, 40, 8, 30, 40, 8⟩

/-- Final truck state of the `dfC3` run. -/
def camC3 : Camion := ⟨[0, 1, 2, 3, 0], 6, 50, 20⟩

/-- `dfC9` after serving client 1. -/
def dfC9_fin : List Row := [⟨1, 200, 0, 10, true, some 1⟩, ⟨2, 201, 0, 10, false, none⟩]

/-- The delivery record of the first commit on `dfC9`. -/
def entC9 : Entrega := ⟨1, 1, 1, 200, 210, 200, 200, 210, 200⟩

/-- `dfC10` after serving its only client. -/
def dfC10_fin : List Row := [⟨1, 0, 0, 10, true, some 1⟩]

/-- The delivery record of the `dfC10` run: every distance is 0. -/
def entC10 : Entrega := ⟨1, 1, 1, 0, 10, 0, 0, 10, 0⟩

end

/-! ### 9. Evaluation helpers -/

theorem distancia_axis (a b : ℝ) : distancia (a, 0) (b, 0) = |a - b| := by
  have h : (a - b) ^ 2 + ((0 : ℝ) - 0) ^ 2 = (a - b) ^ 2 := by ring
  rw [distancia]
  dsimp only
  rw [h, Real.sqrt_sq_eq_abs]

theorem pyRound_eq_of (x : ℝ) (n : ℕ) (m : ℤ) (h : x * 10 ^ n = (m : ℝ)) :
    pyRound x n = x := by
  have h10 : ((10 : ℝ)) ^ n ≠ 0 := by positivity
  rw [pyRound, roundHalfEven, h]
  rw [Int.fract_intCast, if_neg (by norm_num), round_intCast, ← h,
    mul_div_cancel_right₀ _ h10]

theorem truncInt_eq (x : ℝ) (m : ℤ) (h0 : 0 ≤ x) (h1 : (m : ℝ) ≤ x)
    (h2 : x < m + 1) : truncInt x = m := by
  rw [truncInt, if_pos h0]
  rw [Int.floor_eq_iff]
  exact ⟨h1, by exact_mod_cast h2⟩

theorem distancia_axis_le (a b : ℝ) (h : a ≤ b) : distancia (a, 0) (b, 0) = b - a := by
  rw [distancia_axis, abs_sub_comm]
  exact abs_of_nonneg (sub_nonneg.mpr h)

theorem distancia_axis_ge (a b : ℝ) (h : b ≤ a) : distancia (a, 0) (b, 0) = a - b := by
  rw [distancia_axis]
  exact abs_of_nonneg (sub_nonneg.mpr h)

theorem distancia_zero_left (b : ℝ) : distancia 0 (b, 0) = |b| := by
  have h : distancia 0 (b, 0) = distancia ((0 : ℝ), (0 : ℝ)) (b, 0) := rfl
  rw [h, distancia_axis, zero_sub, abs_neg]

theorem distancia_zero_right (a : ℝ) : distancia (a, 0) 0 = |a| := by
  have h : distancia (a, 0) 0 = distancia (a, 0) ((0 : ℝ), (0 : ℝ)) := rfl
  rw [h, distancia_axis, sub_zero]

theorem distancia_zero_zero : distancia (0 : ℝ × ℝ) 0 = 0 := by
  have h : distancia (0 : ℝ × ℝ) 0 = distancia ((0 : ℝ), (0 : ℝ)) ((0 : ℝ), (0 : ℝ)) := rfl
  rw [h, distancia_axis, sub_zero, abs_zero]

theorem beqN_1_2 : ((1 : ℕ) == 2) = false := by simp
theorem beqN_1_3 : ((1 : ℕ) == 3) = false := by simp
theorem beqN_2_1 : ((2 : ℕ) == 1) = false := by simp
theorem beqN_2_3 : ((2 : ℕ) == 3) = false := by simp
theorem beqN_3_1 : ((3 : ℕ) == 1) = false := by simp
theorem beqN_3_2 : ((3 : ℕ) == 2) = false := by simp

/-! ### 10. Concrete rounding and truncation values -/

theorem pyR_0_1 : pyRound (0 : ℝ) 1 = 0 := pyRound_eq_of 0 1 0 (by norm_num)
theorem pyR_0_2 : pyRound (0 : ℝ) 2 = 0 := pyRound_eq_of 0 2 0 (by norm_num)
theorem pyR_1_1 : pyRound (1 : ℝ) 1 = 1 := pyRound_eq_of 1 1 10 (by norm_num)
theorem pyR_1_2 : pyRound (1 : ℝ) 2 = 1 := pyRound_eq_of 1 2 100 (by norm_num)
theorem pyR_5_1 : pyRound (5 : ℝ) 1 = 5 := pyRound_eq_of 5 1 50 (by norm_num)
theorem pyR_5_2 : pyRound (5 : ℝ) 2 = 5 := pyRound_eq_of 5 2 500 (by norm_num)
theorem pyR_8_2 : pyRound (8 : ℝ) 2 = 8 := pyRound_eq_of 8 2 800 (by norm_num)
theorem pyR_10_1 : pyRound (10 : ℝ) 1 = 10 := pyRound_eq_of 10 1 100 (by norm_num)
theorem pyR_10_2 : pyRound (10 : ℝ) 2 = 10 := pyRound_eq_of 10 2 1000 (by norm_num)
theorem pyR_11_1 : pyRound (11 : ℝ) 1 = 11 := pyRound_eq_of 11 1 110 (by norm_num)
theorem pyR_12_1 : pyRound (12 : ℝ) 1 = 12 := pyRound_eq_of 12 1 120 (by norm_num)
theorem pyR_15_1 : pyRound (15 : ℝ) 1 = 15 := pyRound_eq_of 15 1 150 (by norm_num)
theorem pyR_20_1 : pyRound (20 : ℝ) 1 = 20 := pyRound_eq_of 20 1 200 (by norm_num)
theorem pyR_22_1 : pyRound (22 : ℝ) 1 = 22 := pyRound_eq_of 22 1 220 (by norm_num)
theorem pyR_30_1 : pyRound (30 : ℝ) 1 = 30 := pyRound_eq_of 30 1 300 (by norm_num)
theorem pyR_40_1 : pyRound (40 : ℝ) 1 = 40 := pyRound_eq_of 40 1 400 (by norm_num)
theorem pyR_50_1 : pyRound (50 : ℝ) 1 = 50 := pyRound_eq_of 50 1 500 (by norm_num)
theorem pyR_200_1 : pyRound (200 : ℝ) 1 = 200 := pyRound_eq_of 200 1 2000 (by norm_num)
theorem pyR_200_2 : pyRound (200 : ℝ) 2 = 200 := pyRound_eq_of 200 2 20000 (by norm_num)
theorem pyR_210_1 : pyRound (210 : ℝ) 1 = 210 := pyRound_eq_of 210 1 2100 (by norm_num)

theorem truncIntR_2 : ((truncInt (2 : ℝ) : ℤ) : ℝ) = 2 := by
  rw [truncInt_eq 2 2 (by norm_num) (by norm_num) (by norm_num)]; norm_num
theorem truncIntR_5 : ((truncInt (5 : ℝ) : ℤ) : ℝ) = 5 := by
  rw [truncInt_eq 5 5 (by norm_num) (by norm_num) (by norm_num)]; norm_num
theorem truncIntR_10 : ((truncInt (10 : ℝ) : ℤ) : ℝ) = 10 := by
  rw [truncInt_eq 10 10 (by norm_num) (by norm_num) (by norm_num)]; norm_num
theorem truncIntR_10p5 : ((truncInt ((21 : ℝ) / 2) : ℤ) : ℝ) = 10 := by
  rw [truncInt_eq (21 / 2) 10 (by norm_num) (by norm_num) (by norm_num)]; norm_num

/-! ### 11. Generic unfolding lemmas for the loops -/

theorem rutaLoop_step_some {cs : ℕ → ℝ × ℝ} {dia idx : ℕ} {s s' : EstadoRuta} (fuel : ℕ)
    (h : pasoRuta cs dia idx s = some s') :
    rutaLoop cs dia idx (fuel + 1) s = rutaLoop cs dia idx fuel s' := by
  rw [rutaLoop, h]

theorem rutaLoop_step_none {cs : ℕ → ℝ × ℝ} {dia idx : ℕ} {s : EstadoRuta} (fuel : ℕ)
    (h : pasoRuta cs dia idx s = none) :
    rutaLoop cs dia idx (fuel + 1) s = some s := by
  rw [rutaLoop, h]

theorem construyeRuta_eq {cs : ℕ → ℝ × ℝ} {dia idx fuel : ℕ} {df : List Row}
    {s : EstadoRuta} (h : rutaLoop cs dia idx fuel ⟨df, ⟨[0], 0, 0, 0⟩, 0, []⟩ = some s) :
    construyeRuta cs dia idx fuel df = some (s.df, cierraRuta cs s, s.entregas) := by
  rw [construyeRuta, h]

theorem corrida_nil (cs : ℕ → ℝ × ℝ) (fuel dia : ℕ) (df : List Row) :
    corridaCamiones cs fuel dia [] df = some (df, [], []) := rfl

theorem corrida_cons {cs : ℕ → ℝ × ℝ} {fuel dia idx : ℕ} {rest : List ℕ}
    {df df' df'' : List Row} {cam : Camion} {ents ents2 : List Entrega}
    {mets2 : List Metrica}
    (h : construyeRuta cs dia idx fuel df = some (df', cam, ents))
    (h2 : corridaCamiones cs fuel dia rest df' = some (df'', ents2, mets2)) :
    corridaCamiones cs fuel dia (idx :: rest) df =
      some (df'', ents ++ ents2, mkMetrica dia idx cam :: mets2) := by
  rw [corridaCamiones, h]
  dsimp only
  rw [h2]

theorem bucle_done {cs : ℕ → ℝ × ℝ} {fr fd dia : ℕ} {df : List Row}
    (h : df.all (fun r => r.asignado) = true) :
    buclePrincipal cs fr (fd + 1) dia df = some (df, [], []) := by
  rw [buclePrincipal, if_pos h]

theorem bucle_step {cs : ℕ → ℝ × ℝ} {fr fd dia : ℕ} {df df' df'' : List Row}
    {ents ents2 : List Entrega} {mets mets2 : List Metrica}
    (h : df.all (fun r => r.asignado) = false)
    (h1 : corridaCamiones cs fr dia [1, 2, 3, 4] df = some (df', ents, mets))
    (h2 : buclePrincipal cs fr fd (dia + 1) df' = some (df'', ents2, mets2)) :
    buclePrincipal cs fr (fd + 1) dia df = some (df'', ents ++ ents2, mets ++ mets2) := by
  rw [buclePrincipal, if_neg (by simp [h]), h1]
  dsimp only
  rw [h2]

theorem pasoRuta_noCands {cs : ℕ → ℝ × ℝ} {dia idx : ℕ} {s : EstadoRuta}
    (h : candidatosDe s.df s.camion.carga = []) :
    pasoRuta cs dia idx s = none := by
  simp only [pasoRuta]
  rw [dif_pos h]

theorem construyeRuta_noCands {cs : ℕ → ℝ × ℝ} {dia idx : ℕ} (fuel : ℕ) {df : List Row}
    (h : candidatosDe df 0 = []) :
    construyeRuta cs dia idx (fuel + 1) df = some (df, ⟨[0], 0, 0, 0⟩, []) := by
  have hp : pasoRuta cs dia idx ⟨df, ⟨[0], 0, 0, 0⟩, 0, []⟩ = none :=
    pasoRuta_noCands (by simpa using h)
  rw [construyeRuta, rutaLoop_step_none fuel hp]
  simp [cierraRuta]

theorem candidatosDe_of_resto_nil {df : List Row} (c : ℝ) (h : restoDe df = []) :
    candidatosDe df c = [] := by
  rw [candidatosDe, h, filtraPeso]

theorem mkMetrica_cero (dia k : ℕ) :
    mkMetrica dia k ⟨[0], 0, 0, 0⟩ = ⟨dia, k, 0, 0, 0, 0⟩ := by
  norm_num [mkMetrica, pyR_0_1, pyR_0_2]

/-! ### 12. Scenario A evaluation -/

theorem pasoA_1 :
    pasoRuta (coordsOf dfA) 1 1 ⟨dfA, ⟨[0], 0, 0, 0⟩, 0, []⟩ =
      some ⟨dfA_fin, ⟨[0, 1], 10, 15, 5⟩, 1, [entA]⟩ := by
  norm_num [pasoRuta, dfA, dfA_fin, entA, candidatosDe, restoDe, filtraPeso,
    buscaMejor, costeDe, tIdaDe, tRetDe, dIdaDe, coordsOf, List.find?,
    distancia_axis, distancia_zero_left, distancia_zero_right, distancia_zero_zero,
    markServed, unservedPesos, listMin, truncIntR_10, pyR_5_1, pyR_15_1, pyR_5_2,
    CAPACIDAD_MAX, VEL_MED, T_DESPACHO, T_RECARGA, T_JORNADA]

theorem restoA_fin : restoDe dfA_fin = [] := by
  simp [restoDe, dfA_fin]

theorem rutaA :
    rutaLoop (coordsOf dfA) 1 1 2 ⟨dfA, ⟨[0], 0, 0, 0⟩, 0, []⟩ =
      some ⟨dfA_fin, ⟨[0, 1], 10, 15, 5⟩, 1, [entA]⟩ := by
  rw [show (2 : ℕ) = 1 + 1 from rfl, rutaLoop_step_some 1 pasoA_1,
    show (1 : ℕ) = 0 + 1 from rfl,
    rutaLoop_step_none 0 (pasoRuta_noCands (candidatosDe_of_resto_nil _ restoA_fin))]

theorem cierraA :
    cierraRuta (coordsOf dfA) ⟨dfA_fin, ⟨[0, 1], 10, 15, 5⟩, 1, [entA]⟩ =
      ⟨[0, 1, 0], 10, 20, 10⟩ := by
  norm_num [cierraRuta, coordsOf, dfA, List.find?, distancia_axis,
    distancia_zero_left, distancia_zero_right, distancia_zero_zero, VEL_MED]

theorem construyeA :
    construyeRuta (coordsOf dfA) 1 1 2 dfA =
      some (dfA_fin, ⟨[0, 1, 0], 10, 20, 10⟩, [entA]) := by
  rw [construyeRuta_eq rutaA]
  rw [cierraA]

theorem corridaA :
    corridaCamiones (coordsOf dfA) 2 1 [1, 2, 3, 4] dfA =
      some (dfA_fin, [entA],
        [⟨1, 1, 10, 20, 10, 20⟩, ⟨1, 2, 0, 0, 0, 0⟩, ⟨1, 3, 0, 0, 0, 0⟩,
          ⟨1, 4, 0, 0, 0, 0⟩]) := by
  have hrest : ∀ idx, construyeRuta (coordsOf dfA) 1 idx 2 dfA_fin =
      some (dfA_fin, ⟨[0], 0, 0, 0⟩, []) := by
    intro idx
    exact construyeRuta_noCands 1 (candidatosDe_of_resto_nil _ restoA_fin)
  have hmet1 : mkMetrica 1 1 (⟨[0, 1, 0], 10, 20, 10⟩ : Camion) = ⟨1, 1, 10, 20, 10, 20⟩ := by
    norm_num [mkMetrica, pyR_10_2, pyR_20_1]
  rw [corrida_cons construyeA
    (corrida_cons (hrest 2) (corrida_cons (hrest 3)
      (corrida_cons (hrest 4) (corrida_nil _ _ _ _))))]
  rw [hmet1, mkMetrica_cero, mkMetrica_cero, mkMetrica_cero]
  simp

/-- Claim C8: Scenario A — depot (0,0), capacity 15, speed 60 km/h, dispatch
10 min, workday 420 min, one client at (5,0) with weight 10 — produces
exactly one delivery record (day 1, truck 1, arrival 5.0, departure 15.0,
leg 5.00 km), and truck 1's daily metric is 10.00 km total distance and
20.0 min total time (trucks 2–4 report zero). -/
theorem c8_escenario_A :
    ejecuta dfA 2 2 =
      some (dfA_fin, [entA],
        [⟨1, 1, 10, 20, 10, 20⟩, ⟨1, 2, 0, 0, 0, 0⟩, ⟨1, 3, 0, 0, 0, 0⟩,
          ⟨1, 4, 0, 0, 0, 0⟩]) := by
  have h1 : dfA.all (fun r => r.asignado) = false := by simp [dfA]
  have h2 : dfA_fin.all (fun r => r.asignado) = true := by simp [dfA_fin]
  rw [ejecuta, show (2 : ℕ) = 1 + 1 from rfl,
    bucle_step h1 corridaA (bucle_done h2)]
  simp

/-! ### 13. Commit-step evaluations for the load-update bug (claim C1) -/

theorem pasoC1a :
    pasoRuta (coordsOf dfC1a) 1 1 ⟨dfC1a, ⟨[0], 0, 0, 0⟩, 0, []⟩ =
      some ⟨dfC1a_fin, ⟨[0, 1], 5, 11, 1⟩, 1, [entC1a]⟩ := by
  norm_num [pasoRuta, dfC1a, dfC1a_fin, entC1a, candidatosDe, restoDe, filtraPeso,
    buscaMejor, costeDe, tIdaDe, tRetDe, dIdaDe, coordsOf, List.find?,
    beqN_1_2, beqN_2_1,
    distancia_axis, distancia_zero_left, distancia_zero_right, distancia_zero_zero,
    markServed, unservedPesos, listMin, truncIntR_5, pyR_1_1, pyR_11_1, pyR_1_2,
    CAPACIDAD_MAX, VEL_MED, T_DESPACHO, T_RECARGA, T_JORNADA]
  intro h
  simp at h

theorem pasoC1b :
    pasoRuta (coordsOf dfC1b) 1 1 ⟨dfC1b, ⟨[0], 0, 0, 0⟩, 0, []⟩ =
      some ⟨dfC1b_fin, ⟨[0, 1], 10, 15, 5⟩, 1, [entC1b]⟩ := by
  norm_num [pasoRuta, dfC1b, dfC1b_fin, entC1b, candidatosDe, restoDe, filtraPeso,
    buscaMejor, costeDe, tIdaDe, tRetDe, dIdaDe, coordsOf, List.find?,
    distancia_axis, distancia_zero_left, distancia_zero_right, distancia_zero_zero,
    markServed, unservedPesos, listMin, truncIntR_10p5, pyR_5_1, pyR_15_1, pyR_5_2,
    CAPACIDAD_MAX, VEL_MED, T_DESPACHO, T_RECARGA, T_JORNADA]

/-- Claim C1: the claim states that every commit increases the truck's
onboard load by exactly the selected client's demand weight, regardless of
which candidate was selected and whether its weight is integral.  The code
instead executes `camion['carga'] += int(row['Peso (kg)'])` where `row` is
the last row of the candidate enumeration.  Two concrete refutations: on
`dfC1a` client 1 (weight 3) is selected but the load increases by 5 (the
truncated weight of the last candidate, client 2); on `dfC1b` the selected
client's weight 10.5 is truncated, the load increases by 10. -/
theorem c1_commit_carga :
    (pasoRuta (coordsOf dfC1a) 1 1 ⟨dfC1a, ⟨[0], 0, 0, 0⟩, 0, []⟩ =
      some ⟨dfC1a_fin, ⟨[0, 1], 5, 11, 1⟩, 1, [entC1a]⟩) ∧
    entC1a.cliente = 1 ∧ pesoDe dfC1a 1 = 3 ∧ (5 : ℝ) ≠ 0 + 3 ∧
    (pasoRuta (coordsOf dfC1b) 1 1 ⟨dfC1b, ⟨[0], 0, 0, 0⟩, 0, []⟩ =
      some ⟨dfC1b_fin, ⟨[0, 1], 10, 15, 5⟩, 1, [entC1b]⟩) ∧
    entC1b.cliente = 1 ∧ pesoDe dfC1b 1 = 10.5 ∧ (10 : ℝ) ≠ 0 + 10.5 := by
  refine ⟨pasoC1a, rfl, ?_, by norm_num, pasoC1b, rfl, ?_, by norm_num⟩
  · simp [pesoDe, dfC1a, List.find?]
  · simp [pesoDe, dfC1b, List.find?]

/-! ### 14. The unchecked recharge can exceed the workday (claim C9) -/

/-- Claim C9: the mid-route recharge never checks the workday budget.  On
`dfC9` the truck serves client 1 at (200,0) (cost 410 ≤ 420), then the
recharge condition holds and the unconditional return adds 200 + 20
minutes: elapsed time right after the recharge — before any closing leg —
is 430 > 420. -/
theorem c9_recarga_sin_control :
    (pasoRuta (coordsOf dfC9) 1 1 ⟨dfC9, ⟨[0], 0, 0, 0⟩, 0, []⟩ =
      some ⟨dfC9_fin, ⟨[0, 1, 0], 0, 430, 400⟩, 0, [entC9]⟩) ∧
    (430 : ℝ) > T_JORNADA := by
  constructor
  · norm_num [pasoRuta, dfC9, dfC9_fin, entC9, candidatosDe, restoDe, filtraPeso,
      buscaMejor, costeDe, tIdaDe, tRetDe, dIdaDe, coordsOf, List.find?,
      beqN_1_2, beqN_2_1,
      distancia_axis, distancia_zero_left, distancia_zero_right, distancia_zero_zero,
      markServed, unservedPesos, listMin, truncIntR_10, pyR_200_1, pyR_210_1,
      pyR_200_2, CAPACIDAD_MAX, VEL_MED, T_DESPACHO, T_RECARGA, T_JORNADA]
    intro h
    simp at h
  · norm_num [T_JORNADA]

/-! ### 15. The dfC3 run: real onboard weight exceeds the capacity (claim C3) -/

theorem pasoC3_1 :
    pasoRuta (coordsOf dfC3) 1 1 ⟨dfC3, ⟨[0], 0, 0, 0⟩, 0, []⟩ =
      some ⟨dfC3_1, ⟨[0, 1], 2, 11, 1⟩, 1, [entC3_1]⟩ := by
  norm_num [pasoRuta, dfC3, dfC3_1, entC3_1, candidatosDe, restoDe, filtraPeso,
    buscaMejor, costeDe, tIdaDe, tRetDe, dIdaDe, coordsOf, List.find?,
    beqN_1_2, beqN_1_3, beqN_2_1, beqN_2_3, beqN_3_1, beqN_3_2,
    distancia_axis, distancia_zero_left, distancia_zero_right, distancia_zero_zero,
    markServed, unservedPesos, listMin, truncIntR_2, pyR_1_1, pyR_11_1, pyR_1_2,
    CAPACIDAD_MAX, VEL_MED, T_DESPACHO, T_RECARGA, T_JORNADA]
  intro h
  simp at h

theorem pasoC3_2 :
    pasoRuta (coordsOf dfC3) 1 1 ⟨dfC3_1, ⟨[0, 1], 2, 11, 1⟩, 1, [entC3_1]⟩ =
      some ⟨dfC3_2, ⟨[0, 1, 2], 4, 22, 2⟩, 2, [entC3_1, entC3_2]⟩ := by
  norm_num [pasoRuta, dfC3, dfC3_1, dfC3_2, entC3_2, candidatosDe, restoDe, filtraPeso,
    buscaMejor, costeDe, tIdaDe, tRetDe, dIdaDe, coordsOf, List.find?,
    beqN_1_2, beqN_1_3, beqN_2_1, beqN_2_3, beqN_3_1, beqN_3_2,
    distancia_axis, distancia_zero_left, distancia_zero_right, distancia_zero_zero,
    markServed, unservedPesos, listMin, truncIntR_2, pyR_12_1, pyR_22_1, pyR_1_2,
    CAPACIDAD_MAX, VEL_MED, T_DESPACHO, T_RECARGA, T_JORNADA]
  intro h
  simp at h

theorem pasoC3_3 :
    pasoRuta (coordsOf dfC3) 1 1 ⟨dfC3_2, ⟨[0, 1, 2], 4, 22, 2⟩, 2, [entC3_1, entC3_2]⟩ =
      some ⟨dfC3_fin, ⟨[0, 1, 2, 3], 6, 40, 10⟩, 3, [entC3_1, entC3_2, entC3_3]⟩ := by
  norm_num [pasoRuta, dfC3, dfC3_2, dfC3_fin, entC3_3, candidatosDe, restoDe, filtraPeso,
    buscaMejor, costeDe, tIdaDe, tRetDe, dIdaDe, coordsOf, List.find?,
    beqN_1_2, beqN_1_3, beqN_2_1, beqN_2_3, beqN_3_1, beqN_3_2,
    distancia_axis, distancia_zero_left, distancia_zero_right, distancia_zero_zero,
    markServed, unservedPesos, listMin, truncIntR_2, pyR_30_1, pyR_40_1, pyR_8_2,
    CAPACIDAD_MAX, VEL_MED, T_DESPACHO, T_RECARGA, T_JORNADA]

theorem restoC3_fin : restoDe dfC3_fin = [] := by
  simp [restoDe, dfC3_fin]

theorem rutaC3 :
    rutaLoop (coordsOf dfC3) 1 1 4 ⟨dfC3, ⟨[0], 0, 0, 0⟩, 0, []⟩ =
      some ⟨dfC3_fin, ⟨[0, 1, 2, 3], 6, 40, 10⟩, 3, [entC3_1, entC3_2, entC3_3]⟩ :=
  (rutaLoop_step_some 3 pasoC3_1).trans
    ((rutaLoop_step_some 2 pasoC3_2).trans
      ((rutaLoop_step_some 1 pasoC3_3).trans
        (rutaLoop_step_none 0
          (pasoRuta_noCands (candidatosDe_of_resto_nil _ restoC3_fin)))))

theorem cierraC3 :
    cierraRuta (coordsOf dfC3) ⟨dfC3_fin, ⟨[0, 1, 2, 3], 6, 40, 10⟩, 3, [entC3_1, entC3_2, entC3_3]⟩ =
      camC3 := by
  norm_num [cierraRuta, camC3, coordsOf, dfC3, List.find?,
    beqN_1_3, beqN_2_3,
    distancia_axis, distancia_zero_left, distancia_zero_right, distancia_zero_zero, VEL_MED]

theorem construyeC3 :
    construyeRuta (coordsOf dfC3) 1 1 4 dfC3 =
      some (dfC3_fin, camC3, [entC3_1, entC3_2, entC3_3]) := by
  rw [construyeRuta_eq rutaC3, cierraC3]

/-- Claim C3 counterexample: the claim states that for every generated route
and every prefix the sum of the demand weights of the clients served since
the last depot visit never exceeds the capacity limit.  On `dfC3` truck 1
serves clients 1 (14 kg) and 2 (13 kg) with no depot visit in between —
because line 148 adds the truncated weight of the *last* candidate (2 kg)
instead of the selected one, the code's own load counter stays at 4 — so
the prefix [0, 1, 2] of the generated route carries 27 kg > 15 kg. -/
theorem c3_contraejemplo :
    construyeRuta (coordsOf dfC3) 1 1 4 dfC3 =
      some (dfC3_fin, camC3, [entC3_1, entC3_2, entC3_3]) ∧
    cargaTramo dfC3 (camC3.ruta.take 3) = 27 ∧
    ¬ (cargaTramo dfC3 (camC3.ruta.take 3) ≤ CAPACIDAD_MAX) := by
  have h27 : cargaTramo dfC3 (camC3.ruta.take 3) = 27 := by
    norm_num [cargaTramo, tramoDesdeDeposito, camC3, pesoDe, dfC3, List.find?,
      List.takeWhile, beqN_1_2, beqN_2_1]
  exact ⟨construyeC3, h27, by rw [h27]; norm_num [CAPACIDAD_MAX]⟩

/-! ### 16. The dfC10 run: a zero-length closing leg (claim C10 counterexample) -/

theorem pasoC10_1 :
    pasoRuta (coordsOf dfC10) 1 1 ⟨dfC10, ⟨[0], 0, 0, 0⟩, 0, []⟩ =
      some ⟨dfC10_fin, ⟨[0, 1], 10, 10, 0⟩, 1, [entC10]⟩ := by
  norm_num [pasoRuta, dfC10, dfC10_fin, entC10, candidatosDe, restoDe, filtraPeso,
    buscaMejor, costeDe, tIdaDe, tRetDe, dIdaDe, coordsOf, List.find?,
    distancia_axis, distancia_zero_left, distancia_zero_right, distancia_zero_zero,
    markServed, unservedPesos, listMin, truncIntR_10, pyR_0_1, pyR_10_1, pyR_0_2,
    CAPACIDAD_MAX, VEL_MED, T_DESPACHO, T_RECARGA, T_JORNADA]

theorem restoC10_fin : restoDe dfC10_fin = [] := by
  simp [restoDe, dfC10_fin]

theorem rutaC10 :
    rutaLoop (coordsOf dfC10) 1 1 2 ⟨dfC10, ⟨[0], 0, 0, 0⟩, 0, []⟩ =
      some ⟨dfC10_fin, ⟨[0, 1], 10, 10, 0⟩, 1, [entC10]⟩ :=
  (rutaLoop_step_some 1 pasoC10_1).trans
    (rutaLoop_step_none 0 (pasoRuta_noCands (candidatosDe_of_resto_nil _ restoC10_fin)))

theorem construyeC10 :
    construyeRuta (coordsOf dfC10) 1 1 2 dfC10 =
      some (dfC10_fin, ⟨[0, 1, 0], 10, 10, 0⟩, [entC10]) := by
  rw [construyeRuta_eq rutaC10]
  norm_num [cierraRuta, coordsOf, dfC10, List.find?, distancia_axis,
    distancia_zero_left, distancia_zero_right, distancia_zero_zero, VEL_MED]

/-- Claim C10 counterexample: the claim asserts that the per-truck-day sum
of the delivery records' (pre-rounding) leg distances is *strictly* less
than the (pre-rounding) daily-metric total distance whenever at least one
recharge or closing leg occurred that day.  With the single client of
`dfC10` located exactly at the depot position, the inner loop ends with the
truck at position 1 ≠ 0, so the closing leg *is* taken (the route ends
[0, 1, 0]), yet its distance is 0 and the sum equals the total. -/
theorem c10_contraejemplo :
    rutaLoop (coordsOf dfC10) 1 1 2 ⟨dfC10, ⟨[0], 0, 0, 0⟩, 0, []⟩ =
      some ⟨dfC10_fin, ⟨[0, 1], 10, 10, 0⟩, 1, [entC10]⟩ ∧
    (⟨dfC10_fin, ⟨[0, 1], 10, 10, 0⟩, 1, [entC10]⟩ : EstadoRuta).ubic ≠ 0 ∧
    construyeRuta (coordsOf dfC10) 1 1 2 dfC10 =
      some (dfC10_fin, ⟨[0, 1, 0], 10, 10, 0⟩, [entC10]) ∧
    sumRaw [entC10] = (⟨[0, 1, 0], 10, 10, 0⟩ : Camion).dist ∧
    ¬ (sumRaw [entC10] < (⟨[0, 1, 0], 10, 10, 0⟩ : Camion).dist) := by
  refine ⟨rutaC10, by norm_num, construyeC10, ?_, ?_⟩
  · norm_num [sumRaw, entC10]
  · norm_num [sumRaw, entC10]

/-! ### 17. The unroutable client: the day loop never terminates (claim C2) -/

theorem candsC2 : candidatosDe dfC2 0 = [] := by
  norm_num [candidatosDe, dfC2, restoDe, filtraPeso, CAPACIDAD_MAX]

/-- Claim C2: the claim states that a client whose weight exceeds the
capacity makes the run fail fast with an `UnroutableClient` error before
day 1.  The source has no such check: with capacity 15 and a single client
of weight 20 every day pass serves nobody and leaves the DataFrame
unchanged (first conjunct), so the `while not df['asignado'].all()` loop
never terminates — for every fuel bound the loop is still running (second
conjunct). -/
theorem c2_sin_guardia_no_termina :
    (∀ (dia m : ℕ), corridaCamiones (coordsOf dfC2) (m + 1) dia [1, 2, 3, 4] dfC2 =
      some (dfC2, [],
        [⟨dia, 1, 0, 0, 0, 0⟩, ⟨dia, 2, 0, 0, 0, 0⟩, ⟨dia, 3, 0, 0, 0, 0⟩,
          ⟨dia, 4, 0, 0, 0, 0⟩])) ∧
    (∀ (fuelDias fuelRuta dia : ℕ),
      buclePrincipal (coordsOf dfC2) fuelRuta fuelDias dia dfC2 = none) := by
  have hcr : ∀ (dia idx m : ℕ), construyeRuta (coordsOf dfC2) dia idx (m + 1) dfC2 =
      some (dfC2, ⟨[0], 0, 0, 0⟩, []) := by
    intro dia idx m
    exact construyeRuta_noCands m candsC2
  have hc : ∀ (dia m : ℕ), corridaCamiones (coordsOf dfC2) (m + 1) dia [1, 2, 3, 4] dfC2 =
      some (dfC2, [],
        [⟨dia, 1, 0, 0, 0, 0⟩, ⟨dia, 2, 0, 0, 0, 0⟩, ⟨dia, 3, 0, 0, 0, 0⟩,
          ⟨dia, 4, 0, 0, 0, 0⟩]) := by
    intro dia m
    rw [corrida_cons (hcr dia 1 m)
      (corrida_cons (hcr dia 2 m) (corrida_cons (hcr dia 3 m)
        (corrida_cons (hcr dia 4 m) (corrida_nil _ _ _ _))))]
    rw [mkMetrica_cero, mkMetrica_cero, mkMetrica_cero, mkMetrica_cero]
    simp
  refine ⟨hc, ?_⟩
  intro fd
  induction fd with
  | zero => intro _ _; rfl
  | succ n ih =>
      intro fr dia
      rw [buclePrincipal, if_neg (by simp [dfC2])]
      cases fr with
      | zero =>
          have h0 : corridaCamiones (coordsOf dfC2) 0 dia [1, 2, 3, 4] dfC2 = none := rfl
          rw [h0]
      | succ m =>
          rw [hc dia m]
          dsimp only
          rw [ih (m + 1) (dia + 1)]

/-! ### 18. The closing leg (claim C6) -/

/-- Claim C6: when the inner loop ends with the truck away from the depot,
an unconditional return leg is appended — its travel time and distance are
added regardless of the remaining budget (in particular for states already
past the budget, witnessed by the third conjunct, where the closing leg
pushes the elapsed time beyond the workday); when the truck is already at
the depot nothing is added. -/
theorem c6_cierre (cs : ℕ → ℝ × ℝ) (s : EstadoRuta) :
    (s.ubic ≠ 0 →
      cierraRuta cs s =
        { ruta := s.camion.ruta ++ [0]
          carga := s.camion.carga
          tiempo := s.camion.tiempo + distancia (cs s.ubic) (cs 0) / VEL_MED * 60
          dist := s.camion.dist + distancia (cs s.ubic) (cs 0) }) ∧
    (s.ubic = 0 → cierraRuta cs s = s.camion) ∧
    (∃ s2 : EstadoRuta, s2.ubic ≠ 0 ∧ (cierraRuta cs s2).tiempo > T_JORNADA) := by
  refine ⟨fun h => ?_, fun h => ?_, ?_⟩
  · rw [cierraRuta, if_pos h]
  · rw [cierraRuta, if_neg (by simp [h])]
  · refine ⟨⟨[], ⟨[0], 0, 1000, 0⟩, 1, []⟩, by norm_num, ?_⟩
    rw [cierraRuta, if_pos (by norm_num)]
    have hd : 0 ≤ distancia (cs 1) (cs 0) := Real.sqrt_nonneg _
    have h60 : distancia (cs 1) (cs 0) / VEL_MED * 60 = distancia (cs 1) (cs 0) := by
      rw [VEL_MED, div_mul_cancel₀]
      norm_num
    dsimp only
    rw [h60, T_JORNADA]
    linarith

theorem c6_cierre_witness :
    ((⟨[], ⟨[0], 0, 0, 0⟩, 1, []⟩ : EstadoRuta).ubic ≠ 0) ∧
    cierraRuta (fun _ => (0 : ℝ × ℝ)) ⟨[], ⟨[0], 0, 0, 0⟩, 1, []⟩ =
      { ruta := [0] ++ [0], carga := 0,
        tiempo := 0 + distancia 0 0 / VEL_MED * 60,
        dist := 0 + distancia 0 0 } :=
  ⟨by norm_num, (c6_cierre (fun _ => (0 : ℝ × ℝ)) ⟨[], ⟨[0], 0, 0, 0⟩, 1, []⟩).1 (by norm_num)⟩

/-! ### 19. Progress and termination of the inner loop (claim C7) -/

theorem mem_filtraPeso {carga : ℝ} : ∀ {l : List Row} {r : Row},
    r ∈ filtraPeso carga l → r ∈ l := by
  intro l
  induction l with
  | nil => intro r h; simp [filtraPeso] at h
  | cons a t ih =>
      intro r h
      rw [filtraPeso] at h
      by_cases hc : a.peso + carga ≤ CAPACIDAD_MAX
      · rw [if_pos hc] at h
        rcases List.mem_cons.mp h with h1 | h1
        · exact h1 ▸ List.mem_cons_self a t
        · exact List.mem_cons_of_mem _ (ih h1)
      · rw [if_neg hc] at h
        exact List.mem_cons_of_mem _ (ih h)

theorem buscaMejor_mem {cs : ℕ → ℝ × ℝ} {u : ℕ} {tp : ℝ} :
    ∀ (l : List Row) (acc : Option (ℕ × ℝ × ℝ × ℝ)) (m : ℕ × ℝ × ℝ × ℝ),
      buscaMejor cs u tp acc l = some m →
      acc = some m ∨ ∃ r ∈ l, m.1 = r.cid := by
  intro l
  induction l with
  | nil => intro acc m h; exact Or.inl h
  | cons a t ih =>
      intro acc m h
      simp only [buscaMejor] at h
      by_cases hc : tp + costeDe cs u a > T_JORNADA
      · rw [if_pos hc] at h
        rcases ih acc m h with h1 | ⟨r, hr, he⟩
        · exact Or.inl h1
        · exact Or.inr ⟨r, List.mem_cons_of_mem _ hr, he⟩
      · rw [if_neg hc] at h
        cases acc with
        | none =>
            rcases ih _ m h with h1 | ⟨r, hr, he⟩
            · injection h1 with h2
              exact Or.inr ⟨a, List.mem_cons_self a t, by rw [← h2]⟩
            · exact Or.inr ⟨r, List.mem_cons_of_mem _ hr, he⟩
        | some m0 =>
            dsimp only at h
            by_cases h2 : costeDe cs u a < m0.2.1
            · rw [if_pos h2] at h
              rcases ih _ m h with h1 | ⟨r, hr, he⟩
              · injection h1 with h3
                exact Or.inr ⟨a, List.mem_cons_self a t, by rw [← h3]⟩
              · exact Or.inr ⟨r, List.mem_cons_of_mem _ hr, he⟩
            · rw [if_neg h2] at h
              rcases ih _ m h with h1 | ⟨r, hr, he⟩
              · exact Or.inl h1
              · exact Or.inr ⟨r, List.mem_cons_of_mem _ hr, he⟩

theorem markServed_cons (a : Row) (t : List Row) (c d : ℕ) :
    markServed (a :: t) c d =
      (if a.cid = c then { a with asignado := true, dia := some d } else a) :: markServed t c d := by
  simp [markServed]

theorem cuenta_cons (a : Row) (t : List Row) :
    cuentaNoAsignados (a :: t) = (if a.asignado then 0 else 1) + cuentaNoAsignados t := by
  cases ha : a.asignado <;> simp [cuentaNoAsignados, restoDe, ha, Nat.add_comm]

theorem cuenta_markServed_le (df : List Row) (c d : ℕ) :
    cuentaNoAsignados (markServed df c d) ≤ cuentaNoAsignados df := by
  induction df with
  | nil => simp [markServed, cuentaNoAsignados, restoDe]
  | cons a t ih =>
      by_cases hc : a.cid = c
      · rw [markServed_cons, if_pos hc, cuenta_cons, cuenta_cons]
        simp only [Bool.true_eq]
        exact le_trans (by simpa using ih) (Nat.le_add_left _ _)
      · rw [markServed_cons, if_neg hc, cuenta_cons, cuenta_cons]
        exact Nat.add_le_add_left ih _

theorem cuenta_markServed_lt {df : List Row} {c : ℕ} (d : ℕ)
    (h : ∃ r ∈ df, r.cid = c ∧ r.asignado = false) :
    cuentaNoAsignados (markServed df c d) < cuentaNoAsignados df := by
  induction df with
  | nil => rcases h with ⟨r, hr, _⟩; cases hr
  | cons a t ih =>
      rcases h with ⟨r, hr, hcid, hasig⟩
      rw [markServed_cons, cuenta_cons, cuenta_cons]
      rcases List.mem_cons.mp hr with rfl | hrt
      · rw [if_pos hcid]
        have hle := cuenta_markServed_le t c d
        simp [hasig]
        omega
      · have hlt := ih ⟨r, hrt, hcid, hasig⟩
        by_cases hc : a.cid = c
        · rw [if_pos hc]
          cases ha : a.asignado <;> simp [ha] <;> omega
        · rw [if_neg hc]
          cases ha : a.asignado <;> simp [ha] <;> omega

theorem pasoRuta_noMejor {cs : ℕ → ℝ × ℝ} {dia idx : ℕ} {s : EstadoRuta}
    (hm : buscaMejor cs s.ubic s.camion.tiempo none (candidatosDe s.df s.camion.carga) = none) :
    pasoRuta cs dia idx s = none := by
  by_cases hc : candidatosDe s.df s.camion.carga = []
  · exact pasoRuta_noCands hc
  · rw [pasoRuta, dif_neg hc, hm]

theorem pasoRuta_eq {cs : ℕ → ℝ × ℝ} {dia idx : ℕ} {s : EstadoRuta}
    {cid : ℕ} {coste t_ida d_ida : ℝ}
    (hc : candidatosDe s.df s.camion.carga ≠ [])
    (hm : buscaMejor cs s.ubic s.camion.tiempo none (candidatosDe s.df s.camion.carga) =
      some (cid, coste, t_ida, d_ida)) :
    pasoRuta cs dia idx s =
      (let llegada := s.camion.tiempo + t_ida
       let salida := llegada + T_DESPACHO
       let ent : Entrega :=
         ⟨dia, idx, cid, pyRound llegada 1, pyRound salida 1, pyRound d_ida 2,
           llegada, salida, d_ida⟩
       let df' := markServed s.df cid dia
       let camion' : Camion :=
         ⟨s.camion.ruta ++ [cid],
           s.camion.carga +
             ((truncInt ((candidatosDe s.df s.camion.carga).getLast hc).peso : ℤ) : ℝ),
           salida, s.camion.dist + d_ida⟩
       let pesos := unservedPesos df'
       if pesos ≠ [] ∧ camion'.carga + listMin pesos > CAPACIDAD_MAX then
         some ⟨df',
           ⟨camion'.ruta ++ [0], 0,
             camion'.tiempo + distancia (cs cid) (cs 0) / VEL_MED * 60 + T_RECARGA,
             camion'.dist + distancia (cs cid) (cs 0)⟩,
           0, s.entregas ++ [ent]⟩
       else some ⟨df', camion', cid, s.entregas ++ [ent]⟩) := by
  rw [pasoRuta, dif_neg hc, hm]

theorem pasoRuta_progreso {cs : ℕ → ℝ × ℝ} {dia idx : ℕ} {s s' : EstadoRuta}
    (h : pasoRuta cs dia idx s = some s') :
    cuentaNoAsignados s'.df < cuentaNoAsignados s.df := by
  by_cases hc : candidatosDe s.df s.camion.carga = []
  · rw [pasoRuta_noCands hc] at h
    cases h
  · rcases hm : buscaMejor cs s.ubic s.camion.tiempo none (candidatosDe s.df s.camion.carga)
      with _ | ⟨cid, coste, tida, dida⟩
    · rw [pasoRuta_noMejor hm] at h
      cases h
    · rw [pasoRuta_eq hc hm] at h
      have hdf : s'.df = markServed s.df cid dia := by
        dsimp only at h
        split at h
        · injection h with h1
          rw [← h1]
        · injection h with h1
          rw [← h1]
      obtain ⟨r, hr, hre⟩ := (buscaMejor_mem _ none _ hm).resolve_left (by simp)
      have hmem := mem_filtraPeso hr
      rw [restoDe, List.mem_filter] at hmem
      rw [hdf]
      exact cuenta_markServed_lt dia ⟨r, hmem.1, hre.symm, by simpa using hmem.2⟩

theorem rutaLoop_isSome (cs : ℕ → ℝ × ℝ) (dia idx : ℕ) :
    ∀ (fuel : ℕ) (s : EstadoRuta), cuentaNoAsignados s.df < fuel →
      (rutaLoop cs dia idx fuel s).isSome = true := by
  intro fuel
  induction fuel with
  | zero => intro s h; exact absurd h (Nat.not_lt_zero _)
  | succ n ih =>
      intro s h
      rcases hp : pasoRuta cs dia idx s with _ | s'
      · rw [rutaLoop_step_none n hp]
        rfl
      · rw [rutaLoop_step_some n hp]
        have := pasoRuta_progreso hp
        exact ih s' (by omega)

/-- Claim C7: the per-truck inner loop always terminates: every iteration
either exits (`pasoRuta` returns `none`, the two `break` branches) or marks
a previously-unserved client as served, strictly decreasing the number of
unserved rows; consequently, with fuel exceeding the unserved count the
fuel-indexed loop always reaches a `break` (never exhausts its fuel). -/
theorem c7_terminacion (cs : ℕ → ℝ × ℝ) (dia idx : ℕ) :
    (∀ s : EstadoRuta, pasoRuta cs dia idx s = none ∨
      ∃ s', pasoRuta cs dia idx s = some s' ∧
        cuentaNoAsignados s'.df < cuentaNoAsignados s.df) ∧
    (∀ (fuel : ℕ) (s : EstadoRuta), cuentaNoAsignados s.df < fuel →
      (rutaLoop cs dia idx fuel s).isSome = true) := by
  constructor
  · intro s
    rcases hp : pasoRuta cs dia idx s with _ | s'
    · exact Or.inl rfl
    · exact Or.inr ⟨s', rfl, pasoRuta_progreso hp⟩
  · exact rutaLoop_isSome cs dia idx

theorem c7_terminacion_witness :
    cuentaNoAsignados ([] : List Row) < 1 ∧
    (rutaLoop (fun _ => (0 : ℝ × ℝ)) 1 1 1 ⟨[], ⟨[0], 0, 0, 0⟩, 0, []⟩).isSome = true :=
  ⟨by norm_num [cuentaNoAsignados, restoDe],
    (c7_terminacion (fun _ => (0 : ℝ × ℝ)) 1 1).2 1 ⟨[], ⟨[0], 0, 0, 0⟩, 0, []⟩
      (by norm_num [cuentaNoAsignados, restoDe])⟩

/-! ### 20. The recharge check (claim C4) -/

/-- Claim C4: after a commit of client `cid`, the depot recharge is performed
if and only if unserved clients remain and the minimum remaining demand
weight added to the truck's (tracked) load strictly exceeds the capacity —
equality triggers no recharge, since the source tests with `>`.  When it
fires it adds the return travel time plus the fixed recharge time to the
elapsed time, adds the return-leg distance, appends the depot to the route,
resets the load to zero and sets the position to the depot; otherwise the
truck keeps the committed load and stays at the client. -/
theorem c4_recarga (cs : ℕ → ℝ × ℝ) (dia idx : ℕ) (s : EstadoRuta)
    (cid : ℕ) (coste t_ida d_ida : ℝ)
    (hc : candidatosDe s.df s.camion.carga ≠ [])
    (hm : buscaMejor cs s.ubic s.camion.tiempo none (candidatosDe s.df s.camion.carga) =
      some (cid, coste, t_ida, d_ida)) :
    ∃ s', pasoRuta cs dia idx s = some s' ∧
      s'.df = markServed s.df cid dia ∧
      s'.entregas = s.entregas ++
        [⟨dia, idx, cid, pyRound (s.camion.tiempo + t_ida) 1,
          pyRound (s.camion.tiempo + t_ida + T_DESPACHO) 1, pyRound d_ida 2,
          s.camion.tiempo + t_ida, s.camion.tiempo + t_ida + T_DESPACHO, d_ida⟩] ∧
      ((unservedPesos (markServed s.df cid dia) ≠ [] ∧
          s.camion.carga +
              ((truncInt ((candidatosDe s.df s.camion.carga).getLast hc).peso : ℤ) : ℝ) +
            listMin (unservedPesos (markServed s.df cid dia)) > CAPACIDAD_MAX) →
        s'.camion.carga = 0 ∧ s'.ubic = 0 ∧
        s'.camion.ruta = s.camion.ruta ++ [cid] ++ [0] ∧
        s'.camion.tiempo = s.camion.tiempo + t_ida + T_DESPACHO +
          distancia (cs cid) (cs 0) / VEL_MED * 60 + T_RECARGA ∧
        s'.camion.dist = s.camion.dist + d_ida + distancia (cs cid) (cs 0)) ∧
      (¬ (unservedPesos (markServed s.df cid dia) ≠ [] ∧
          s.camion.carga +
              ((truncInt ((candidatosDe s.df s.camion.carga).getLast hc).peso : ℤ) : ℝ) +
            listMin (unservedPesos (markServed s.df cid dia)) > CAPACIDAD_MAX) →
        s'.camion.carga = s.camion.carga +
          ((truncInt ((candidatosDe s.df s.camion.carga).getLast hc).peso : ℤ) : ℝ) ∧
        s'.ubic = cid ∧
        s'.camion.ruta = s.camion.ruta ++ [cid] ∧
        s'.camion.tiempo = s.camion.tiempo + t_ida + T_DESPACHO ∧
        s'.camion.dist = s.camion.dist + d_ida) := by
  rw [pasoRuta_eq hc hm]
  dsimp only
  by_cases hP : (unservedPesos (markServed s.df cid dia) ≠ [] ∧
      s.camion.carga +
          ((truncInt ((candidatosDe s.df s.camion.carga).getLast hc).peso : ℤ) : ℝ) +
        listMin (unservedPesos (markServed s.df cid dia)) > CAPACIDAD_MAX)
  · rw [if_pos hP]
    exact ⟨_, rfl, rfl, rfl, fun _ => ⟨rfl, rfl, rfl, rfl, rfl⟩, fun hn => absurd hP hn⟩
  · rw [if_neg hP]
    exact ⟨_, rfl, rfl, rfl, fun hp => absurd hp hP, fun _ => ⟨rfl, rfl, rfl, rfl, rfl⟩⟩

theorem candsB : candidatosDe dfB 0 = dfB := by
  norm_num [candidatosDe, dfB, restoDe, filtraPeso, CAPACIDAD_MAX]

theorem candsB_ne : candidatosDe dfB 0 ≠ [] := by
  rw [candsB]
  simp [dfB]

theorem mejorB :
    buscaMejor (coordsOf dfB) 0 0 none (candidatosDe dfB 0) = some (1, 20, 5, 5) := by
  rw [candsB]
  norm_num [buscaMejor, dfB, costeDe, tIdaDe, tRetDe, dIdaDe, coordsOf, List.find?,
    beqN_1_2, beqN_2_1, distancia_axis, distancia_zero_left, distancia_zero_right,
    T_DESPACHO, T_JORNADA, VEL_MED]

theorem getLast_candsB : ∀ (h : candidatosDe dfB 0 ≠ []),
    (candidatosDe dfB 0).getLast h = ⟨2, 5, 0, 10, false, none⟩ := by
  have hgen : ∀ (l : List Row) (hl : l ≠ []), l = dfB →
      l.getLast hl = ⟨2, 5, 0, 10, false, none⟩ := by
    intro l hl he
    subst he
    rfl
  intro h
  exact hgen _ h candsB

theorem c4_recarga_witness :
    candidatosDe dfB 0 ≠ [] ∧
    buscaMejor (coordsOf dfB) 0 0 none (candidatosDe dfB 0) = some (1, 20, 5, 5) ∧
    ∃ s', pasoRuta (coordsOf dfB) 1 1 ⟨dfB, ⟨[0], 0, 0, 0⟩, 0, []⟩ = some s' ∧
      s'.camion.carga = 0 ∧ s'.ubic = 0 ∧ s'.camion.ruta = [0] ++ [1] ++ [0] := by
  refine ⟨candsB_ne, mejorB, ?_⟩
  obtain ⟨s', h1, _, _, himp, _⟩ :=
    c4_recarga (coordsOf dfB) 1 1 ⟨dfB, ⟨[0], 0, 0, 0⟩, 0, []⟩ 1 20 5 5 candsB_ne mejorB
  have hP : unservedPesos (markServed dfB 1 1) ≠ [] ∧
      (0 : ℝ) + ((truncInt ((candidatosDe dfB 0).getLast candsB_ne).peso : ℤ) : ℝ) +
        listMin (unservedPesos (markServed dfB 1 1)) > CAPACIDAD_MAX := by
    rw [getLast_candsB]
    constructor
    · norm_num [unservedPesos, markServed, restoDe, dfB]
    · norm_num [unservedPesos, markServed, restoDe, dfB, listMin, truncIntR_10,
        CAPACIDAD_MAX]
  obtain ⟨hcarga, hubic, hruta, _, _⟩ := himp hP
  exact ⟨s', h1, hcarga, hubic, hruta⟩

/-! ### 21. The greedy selection (claim C5) -/

theorem buscaMejor_acc_spec {cs : ℕ → ℝ × ℝ} {u : ℕ} {tp : ℝ} :
    ∀ (l : List Row) (m : ℕ × ℝ × ℝ × ℝ),
      (buscaMejor cs u tp (some m) l = some m ∧
        ∀ r ∈ l, ¬(tp + costeDe cs u r > T_JORNADA) → m.2.1 ≤ costeDe cs u r)
      ∨ (∃ l1 r l2, l = l1 ++ r :: l2 ∧ ¬(tp + costeDe cs u r > T_JORNADA) ∧
          buscaMejor cs u tp (some m) l =
            some (r.cid, costeDe cs u r, tIdaDe cs u r, dIdaDe cs u r) ∧
          costeDe cs u r < m.2.1 ∧
          (∀ r' ∈ l1, ¬(tp + costeDe cs u r' > T_JORNADA) →
            costeDe cs u r < costeDe cs u r') ∧
          (∀ r' ∈ l2, ¬(tp + costeDe cs u r' > T_JORNADA) →
            costeDe cs u r ≤ costeDe cs u r')) := by
  intro l
  induction l with
  | nil =>
      intro m
      left
      exact ⟨rfl, by simp⟩
  | cons a t ih =>
      intro m
      simp only [buscaMejor]
      by_cases ha : tp + costeDe cs u a > T_JORNADA
      · rw [if_pos ha]
        rcases ih m with ⟨he, hmin⟩ | ⟨l1, r, l2, hsplit, hs, he, hlt, h1, h2⟩
        · left
          refine ⟨he, ?_⟩
          intro r hr hs
          rcases List.mem_cons.mp hr with rfl | hrt
          · exact absurd ha hs
          · exact hmin r hrt hs
        · right
          refine ⟨a :: l1, r, l2, by rw [hsplit]; rfl, hs, he, hlt, ?_, h2⟩
          intro r' hr' hs'
          rcases List.mem_cons.mp hr' with rfl | hrt
          · exact absurd ha hs'
          · exact h1 r' hrt hs'
      · rw [if_neg ha]
        by_cases hlt : costeDe cs u a < m.2.1
        · rw [if_pos hlt]
          rcases ih (a.cid, costeDe cs u a, tIdaDe cs u a, dIdaDe cs u a) with
            ⟨he, hmin⟩ | ⟨l1, r, l2, hsplit, hs, he, hlt2, h1, h2⟩
          · right
            refine ⟨[], a, t, rfl, ha, he, hlt, by simp, ?_⟩
            intro r' hr' hs'
            exact hmin r' hr' hs'
          · right
            refine ⟨a :: l1, r, l2, by rw [hsplit]; rfl, hs, he,
              lt_trans hlt2 hlt, ?_, h2⟩
            intro r' hr' hs'
            rcases List.mem_cons.mp hr' with rfl | hrt
            · exact hlt2
            · exact h1 r' hrt hs'
        · rw [if_neg hlt]
          rcases ih m with ⟨he, hmin⟩ | ⟨l1, r, l2, hsplit, hs, he, hlt2, h1, h2⟩
          · left
            refine ⟨he, ?_⟩
            intro r hr hs
            rcases List.mem_cons.mp hr with rfl | hrt
            · exact not_lt.mp hlt
            · exact hmin r hrt hs
          · right
            refine ⟨a :: l1, r, l2, by rw [hsplit]; rfl, hs, he, hlt2, ?_, h2⟩
            intro r' hr' hs'
            rcases List.mem_cons.mp hr' with rfl | hrt
            · exact lt_of_lt_of_le hlt2 (not_lt.mp hlt)
            · exact h1 r' hrt hs'

theorem buscaMejor_none_spec {cs : ℕ → ℝ × ℝ} {u : ℕ} {tp : ℝ} :
    ∀ (l : List Row),
      (buscaMejor cs u tp none l = none ∧ ∀ r ∈ l, tp + costeDe cs u r > T_JORNADA)
      ∨ (∃ l1 r l2, l = l1 ++ r :: l2 ∧ ¬(tp + costeDe cs u r > T_JORNADA) ∧
          buscaMejor cs u tp none l =
            some (r.cid, costeDe cs u r, tIdaDe cs u r, dIdaDe cs u r) ∧
          (∀ r' ∈ l1, ¬(tp + costeDe cs u r' > T_JORNADA) →
            costeDe cs u r < costeDe cs u r') ∧
          (∀ r' ∈ l2, ¬(tp + costeDe cs u r' > T_JORNADA) →
            costeDe cs u r ≤ costeDe cs u r')) := by
  intro l
  induction l with
  | nil =>
      left
      exact ⟨rfl, by simp⟩
  | cons a t ih =>
      simp only [buscaMejor]
      by_cases ha : tp + costeDe cs u a > T_JORNADA
      · rw [if_pos ha]
        rcases ih with ⟨he, hall⟩ | ⟨l1, r, l2, hsplit, hs, he, h1, h2⟩
        · left
          refine ⟨he, ?_⟩
          intro r hr
          rcases List.mem_cons.mp hr with rfl | hrt
          · exact ha
          · exact hall r hrt
        · right
          refine ⟨a :: l1, r, l2, by rw [hsplit]; rfl, hs, he, ?_, h2⟩
          intro r' hr' hs'
          rcases List.mem_cons.mp hr' with rfl | hrt
          · exact absurd ha hs'
          · exact h1 r' hrt hs'
      · rw [if_neg ha]
        rcases buscaMejor_acc_spec t (a.cid, costeDe cs u a, tIdaDe cs u a, dIdaDe cs u a)
          with ⟨he, hmin⟩ | ⟨l1, r, l2, hsplit, hs, he, hlt2, h1, h2⟩
        · right
          refine ⟨[], a, t, rfl, ha, he, by simp, ?_⟩
          intro r' hr' hs'
          exact hmin r' hr' hs'
        · right
          refine ⟨a :: l1, r, l2, by rw [hsplit]; rfl, hs, he, ?_, h2⟩
          intro r' hr' hs'
          rcases List.mem_cons.mp hr' with rfl | hrt
          · exact hlt2
          · exact h1 r' hrt hs'

/-- Claim C5: at each selection step every capacity-feasible candidate is
valued at `cost = travelTime(position → candidate) + dispatch +
travelTime(candidate → depot)` (that is `costeDe`); candidates whose cost
added to the elapsed time would exceed the workday budget are discarded;
among the survivors the returned candidate has strictly minimum cost, ties
broken in favor of the first candidate in the enumeration order (all
earlier surviving candidates are strictly costlier, all later surviving
candidates cost at least as much); if no candidate survives, the selection
returns `none`. -/
theorem c5_seleccion (cs : ℕ → ℝ × ℝ) (ubic : ℕ) (tiempo carga : ℝ) (df : List Row) :
    (∀ (cid : ℕ) (coste t_ida d_ida : ℝ),
      buscaMejor cs ubic tiempo none (candidatosDe df carga) =
        some (cid, coste, t_ida, d_ida) →
      ∃ l1 r l2, candidatosDe df carga = l1 ++ r :: l2 ∧
        cid = r.cid ∧ coste = costeDe cs ubic r ∧
        t_ida = tIdaDe cs ubic r ∧ d_ida = dIdaDe cs ubic r ∧
        ¬(tiempo + costeDe cs ubic r > T_JORNADA) ∧
        (∀ r' ∈ l1, ¬(tiempo + costeDe cs ubic r' > T_JORNADA) →
          costeDe cs ubic r < costeDe cs ubic r') ∧
        (∀ r' ∈ l2, ¬(tiempo + costeDe cs ubic r' > T_JORNADA) →
          costeDe cs ubic r ≤ costeDe cs ubic r')) ∧
    (buscaMejor cs ubic tiempo none (candidatosDe df carga) = none →
      ∀ r ∈ candidatosDe df carga, tiempo + costeDe cs ubic r > T_JORNADA) := by
  constructor
  · intro cid coste t_ida d_ida hres
    rcases buscaMejor_none_spec (candidatosDe df carga) with
      ⟨he, _⟩ | ⟨l1, r, l2, hsplit, hs, he, h1, h2⟩
    · rw [he] at hres
      cases hres
    · rw [he] at hres
      injection hres with h3
      simp only [Prod.mk.injEq] at h3
      obtain ⟨e1, e2, e3, e4⟩ := h3
      exact ⟨l1, r, l2, hsplit, e1.symm, e2.symm, e3.symm, e4.symm, hs, h1, h2⟩
  · intro hres r hr
    rcases buscaMejor_none_spec (candidatosDe df carga) with
      ⟨_, hall⟩ | ⟨l1, r0, l2, hsplit, hs, he, h1, h2⟩
    · exact hall r hr
    · rw [he] at hres
      cases hres

theorem c5_seleccion_witness :
    buscaMejor (coordsOf dfB) 0 0 none (candidatosDe dfB 0) = some (1, 20, 5, 5) ∧
    ∃ l1 r l2, candidatosDe dfB 0 = l1 ++ r :: l2 ∧
      (1 : ℕ) = r.cid ∧ (20 : ℝ) = costeDe (coordsOf dfB) 0 r ∧
      (5 : ℝ) = tIdaDe (coordsOf dfB) 0 r ∧ (5 : ℝ) = dIdaDe (coordsOf dfB) 0 r ∧
      ¬((0 : ℝ) + costeDe (coordsOf dfB) 0 r > T_JORNADA) ∧
      (∀ r' ∈ l1, ¬((0 : ℝ) + costeDe (coordsOf dfB) 0 r' > T_JORNADA) →
        costeDe (coordsOf dfB) 0 r < costeDe (coordsOf dfB) 0 r') ∧
      (∀ r' ∈ l2, ¬((0 : ℝ) + costeDe (coordsOf dfB) 0 r' > T_JORNADA) →
        costeDe (coordsOf dfB) 0 r ≤ costeDe (coordsOf dfB) 0 r') :=
  ⟨mejorB, (c5_seleccion (coordsOf dfB) 0 0 0 dfB).1 1 20 5 5 mejorB⟩

/-! ### 22. Distance accounting: delivery legs vs depot-bound legs (claim C10) -/

theorem distancia_nonneg (p q : ℝ × ℝ) : 0 ≤ distancia p q :=
  Real.sqrt_nonneg _

theorem distLegs_nonneg (cs : ℕ → ℝ × ℝ) : ∀ l : List ℕ, 0 ≤ distLegsDeposito cs l := by
  intro l
  induction l with
  | nil => simp [distLegsDeposito]
  | cons a t ih =>
      cases t with
      | nil => simp [distLegsDeposito]
      | cons b t2 =>
          simp only [distLegsDeposito]
          have h1 : 0 ≤ (if b = 0 then distancia (cs a) (cs b) else 0) := by
            split
            · exact distancia_nonneg _ _
            · exact le_refl 0
          linarith [ih]

theorem sumRaw_append (l1 l2 : List Entrega) :
    sumRaw (l1 ++ l2) = sumRaw l1 + sumRaw l2 := by
  simp [sumRaw]

theorem distLegs_append (cs : ℕ → ℝ × ℝ) :
    ∀ (l : List ℕ) (a c : ℕ), l.getLast? = some a →
      distLegsDeposito cs (l ++ [c]) =
        distLegsDeposito cs l + (if c = 0 then distancia (cs a) (cs c) else 0) := by
  intro l
  induction l with
  | nil => intro a c h; simp at h
  | cons x t ih =>
      intro a c h
      cases t with
      | nil =>
          rw [List.getLast?_singleton] at h
          injection h with h1
          subst h1
          simp only [List.cons_append, List.nil_append, distLegsDeposito]
          ring
      | cons y t2 =>
          rw [List.getLast?_cons_cons] at h
          have hih := ih a c h
          simp only [List.cons_append] at hih ⊢
          simp only [distLegsDeposito]
          rw [hih]
          ring

theorem sumRaw_singleton (e : Entrega) : sumRaw [e] = e.dist_tramo_raw := by
  simp [sumRaw]

theorem markServed_ids {df : List Row} {cid dia : ℕ}
    (hids : ∀ r ∈ df, r.cid ≠ 0) :
    ∀ r' ∈ markServed df cid dia, r'.cid ≠ 0 := by
  intro r' hr'
  rw [markServed] at hr'
  obtain ⟨x, hx, he⟩ := List.mem_map.mp hr'
  rw [← he]
  split
  · exact hids x hx
  · exact hids x hx

theorem pasoRuta_inv {cs : ℕ → ℝ × ℝ} {dia idx : ℕ} {s s' : EstadoRuta}
    (h : pasoRuta cs dia idx s = some s')
    (hids : ∀ r ∈ s.df, r.cid ≠ 0)
    (hlast : s.camion.ruta.getLast? = some s.ubic)
    (hacc : sumRaw s.entregas + distLegsDeposito cs s.camion.ruta = s.camion.dist) :
    (∀ r ∈ s'.df, r.cid ≠ 0) ∧
    s'.camion.ruta.getLast? = some s'.ubic ∧
    sumRaw s'.entregas + distLegsDeposito cs s'.camion.ruta = s'.camion.dist := by
  by_cases hc : candidatosDe s.df s.camion.carga = []
  · rw [pasoRuta_noCands hc] at h
    cases h
  · rcases hm : buscaMejor cs s.ubic s.camion.tiempo none (candidatosDe s.df s.camion.carga)
      with _ | ⟨cid, coste, tida, dida⟩
    · rw [pasoRuta_noMejor hm] at h
      cases h
    · obtain ⟨r, hr, hre⟩ := (buscaMejor_mem _ none _ hm).resolve_left (by simp)
      have hmem := mem_filtraPeso hr
      rw [restoDe, List.mem_filter] at hmem
      have hcid0 : cid ≠ 0 := by
        have he : cid = r.cid := hre
        rw [he]
        exact hids r hmem.1
      rw [pasoRuta_eq hc hm] at h
      dsimp only at h
      split at h
      · injection h with h1
        subst h1
        refine ⟨markServed_ids hids, ?_, ?_⟩
        · exact List.getLast?_concat _
        · dsimp only
          rw [sumRaw_append,
            distLegs_append cs _ cid 0 (List.getLast?_concat _),
            distLegs_append cs _ s.ubic cid hlast,
            if_pos rfl, if_neg hcid0, sumRaw_singleton]
          dsimp only
          linarith [hacc]
      · injection h with h1
        subst h1
        refine ⟨markServed_ids hids, ?_, ?_⟩
        · exact List.getLast?_concat _
        · dsimp only
          rw [sumRaw_append, distLegs_append cs _ s.ubic cid hlast, if_neg hcid0,
            sumRaw_singleton]
          dsimp only
          linarith [hacc]

theorem rutaLoop_inv {cs : ℕ → ℝ × ℝ} {dia idx : ℕ} :
    ∀ (fuel : ℕ) (s s' : EstadoRuta),
      rutaLoop cs dia idx fuel s = some s' →
      (∀ r ∈ s.df, r.cid ≠ 0) →
      s.camion.ruta.getLast? = some s.ubic →
      sumRaw s.entregas + distLegsDeposito cs s.camion.ruta = s.camion.dist →
      (∀ r ∈ s'.df, r.cid ≠ 0) ∧
      s'.camion.ruta.getLast? = some s'.ubic ∧
      sumRaw s'.entregas + distLegsDeposito cs s'.camion.ruta = s'.camion.dist := by
  intro fuel
  induction fuel with
  | zero => intro s s' h; cases h
  | succ n ih =>
      intro s s' h hids hlast hacc
      rcases hp : pasoRuta cs dia idx s with _ | s2
      · rw [rutaLoop_step_none n hp] at h
        injection h with h1
        subst h1
        exact ⟨hids, hlast, hacc⟩
      · rw [rutaLoop_step_some n hp] at h
        obtain ⟨h1, h2, h3⟩ := pasoRuta_inv hp hids hlast hacc
        exact ih s2 s' h h1 h2 h3

theorem cierra_acc {cs : ℕ → ℝ × ℝ} {s : EstadoRuta}
    (hlast : s.camion.ruta.getLast? = some s.ubic)
    (hacc : sumRaw s.entregas + distLegsDeposito cs s.camion.ruta = s.camion.dist) :
    sumRaw s.entregas + distLegsDeposito cs (cierraRuta cs s).ruta = (cierraRuta cs s).dist := by
  rw [cierraRuta]
  by_cases hu : s.ubic ≠ 0
  · rw [if_pos hu]
    dsimp only
    rw [distLegs_append cs _ s.ubic 0 hlast, if_pos rfl]
    linarith [hacc]
  · rw [if_neg hu]
    exact hacc

/-- Claim C10 (amended): for one truck-day, the (pre-rounding) sum of the
delivery records' leg distances plus the total distance of the depot-bound
(recharge and closing) legs of the truck's route equals the truck's
(pre-rounding) total distance; hence the records' sum never exceeds the
total, and it is strictly below it exactly when some recharge or closing
leg has positive distance.  (Requires the input contract that no client
uses the reserved depot identity 0.) -/
theorem c10_legs_deposito {cs : ℕ → ℝ × ℝ} {dia idx fuel : ℕ}
    {df df' : List Row} {cam : Camion} {ents : List Entrega}
    (hids : ∀ r ∈ df, r.cid ≠ 0)
    (h : construyeRuta cs dia idx fuel df = some (df', cam, ents)) :
    sumRaw ents + distLegsDeposito cs cam.ruta = cam.dist ∧
    sumRaw ents ≤ cam.dist ∧
    (0 < distLegsDeposito cs cam.ruta → sumRaw ents < cam.dist) := by
  rw [construyeRuta] at h
  rcases hl : rutaLoop cs dia idx fuel ⟨df, ⟨[0], 0, 0, 0⟩, 0, []⟩ with _ | s
  · rw [hl] at h
    cases h
  · rw [hl] at h
    injection h with h1
    simp only [Prod.mk.injEq] at h1
    obtain ⟨e1, e2, e3⟩ := h1
    have hinv := rutaLoop_inv fuel _ s hl hids (by rfl)
      (by simp [sumRaw, distLegsDeposito])
    have hca := cierra_acc hinv.2.1 hinv.2.2
    rw [e2, e3] at hca
    refine ⟨hca, ?_, ?_⟩
    · have := distLegs_nonneg cs cam.ruta
      linarith [hca]
    · intro hpos
      linarith [hca]

theorem c10_legs_deposito_witness :
    (∀ r ∈ dfA, r.cid ≠ 0) ∧
    construyeRuta (coordsOf dfA) 1 1 2 dfA =
      some (dfA_fin, ⟨[0, 1, 0], 10, 20, 10⟩, [entA]) ∧
    (sumRaw [entA] + distLegsDeposito (coordsOf dfA) (⟨[0, 1, 0], 10, 20, 10⟩ : Camion).ruta =
        (⟨[0, 1, 0], 10, 20, 10⟩ : Camion).dist ∧
      sumRaw [entA] ≤ (⟨[0, 1, 0], 10, 20, 10⟩ : Camion).dist ∧
      (0 < distLegsDeposito (coordsOf dfA) (⟨[0, 1, 0], 10, 20, 10⟩ : Camion).ruta →
        sumRaw [entA] < (⟨[0, 1, 0], 10, 20, 10⟩ : Camion).dist)) := by
  have hids : ∀ r ∈ dfA, r.cid ≠ 0 := by
    intro r hr
    simp only [dfA, List.mem_singleton] at hr
    subst hr
    simp
  exact ⟨hids, construyeA, c10_legs_deposito hids construyeA⟩
